import Mathlib

/-!
Shallow embedding of `src/core/trainers.py` (FCN-CD-PyTorch): the
`Trainer` checkpoint/resume reconciliation, the learning-rate schedule,
the epoch-driving loop with best-model tracking, and the three-slot
checkpoint persistence, together with proofs of the specification
properties.

Python dictionaries (`state_dict` parameter mappings) are modelled as
insertion-ordered association lists `List (String × Tensor)`; in every
dictionary the framework produces the keys are unique, which is carried
as a `Nodup` hypothesis where a proof needs to count entries.  Machine
floats carrying validation scores are modelled as exact rationals, and
the real-valued learning rate as a real number.  Fallible operations
(missing file, unknown mode, division by zero) return `Option`.
-/

namespace Trainers

/-- A parameter tensor: its shape, and an opaque payload identifier that
stands for the numeric contents (the trainer never inspects values, only
shapes, in `_resume_from_checkpoint` line 149). -/
structure Tensor where
  shape : List ℕ
  data : ℕ
deriving DecidableEq

/-- A model or checkpoint parameter mapping (a Python `state_dict`). -/
abbrev StateDict := List (String × Tensor)

/-- The `max_acc` entry of a checkpoint record: either a bare number
(legacy files, `isinstance(max_acc_and_epoch, (float, int))` at line 166)
or a (score, epoch) pair. -/
inductive MaxAccField where
  | legacy (v : ℚ)
  | pair (v : ℚ) (e : ℕ)
deriving DecidableEq

/-- A checkpoint record as loaded by `torch.load` (line 144).
`state_dict` is the parameter mapping selected by
`checkpoint.get('state_dict', checkpoint)` (line 147); `epoch` and
`max_acc` are `none` when the corresponding keys are absent, matching
the `checkpoint.get(...)` defaults at lines 163-164; `optimizer` is an
opaque serialized optimizer state. -/
structure Checkpoint where
  epoch : Option ℕ
  state_dict : StateDict
  optimizer : ℕ
  max_acc : Option MaxAccField
deriving DecidableEq

/-- The fields of a `Trainer` instance that the resume / train /
evaluate logic reads and writes (`__init__` lines 19-57).
`is_training` is `mode == 0` (line 23 / 61); `resume_path` is
`self.checkpoint` (line 30); `model` is the live `model.state_dict()`;
`start_epoch` and `init_max_acc_and_epoch` start at `0` and `(0.0, 0)`
(lines 56-57); `optimizer` is an opaque optimizer state (`0` = freshly
constructed). -/
structure TrainerState where
  is_training : Bool
  anew : Bool
  load_optim : Bool
  resume_path : String
  model : StateDict
  start_epoch : ℕ
  init_max_acc_and_epoch : ℚ × ℕ
  optimizer : ℕ
deriving DecidableEq

/-- `Trainer.ckp_epoch` (lines 207-211): `max(self.start_epoch-1, 0)`,
the last completed epoch of the loaded checkpoint. -/
def ckp_epoch (start_epoch : ℕ) : ℕ :=
  max (start_epoch - 1) 0

/-- The key list of a parameter mapping (`state_dict.keys()`). -/
def keys (l : StateDict) : List String :=
  l.map Prod.fst

/-- The `update_dict` comprehension of `_resume_from_checkpoint`
(lines 148-149): the record entries whose key exists in the live
`state_dict` with an identical shape. -/
def update_dict (sd ckp : StateDict) : StateDict :=
  ckp.filter fun kv =>
    match sd.lookup kv.1 with
    | some t => decide (t.shape = kv.2.shape)
    | none => false

/-- Python `dict.update` (line 174): keys already present keep their
position and receive the new value; new keys are appended in order. -/
def dict_update (d u : StateDict) : StateDict :=
  (d.map fun kv =>
    match u.lookup kv.1 with
    | some w => (kv.1, w)
    | none => kv)
  ++ u.filter fun kv => (d.lookup kv.1).isNone

/-- `Trainer._resume_from_checkpoint` (lines 136-180).  `file` is the
result of `torch.load` when `os.path.isfile` succeeds, `none` otherwise.
Returns the Python return value together with the trainer state
afterwards.  The branch structure follows the source: the mismatch test
at line 152, the evaluation-mode rejection at lines 153-155, the
nothing-to-load rejection at lines 157-159, the progress restoration
guarded by `(not anew) or not is_training` at lines 162-172, and the
unconditional `state_dict.update(update_dict)` + `load_state_dict`
application at lines 174-175. -/
def resume_from_checkpoint (t : TrainerState) (file : Option Checkpoint) :
    Bool × TrainerState :=
  match file with
  | none => (false, t)
  | some ckp =>
    let state_dict := t.model
    let ckp_dict := ckp.state_dict
    let upd := update_dict state_dict ckp_dict
    let num_to_update := upd.length
    if num_to_update < state_dict.length ∨ state_dict.length < ckp_dict.length then
      if t.is_training = false ∧ num_to_update < state_dict.length then
        (false, t)
      else if num_to_update = 0 then
        (false, t)
      else
        (true, { t with model := dict_update state_dict upd })
    else
      let t1 :=
        if t.anew = false ∨ t.is_training = false then
          let se := ckp.epoch.getD 0
          let ce := ckp_epoch se
          let macc :=
            match ckp.max_acc.getD (MaxAccField.pair 0 ce) with
            | MaxAccField.legacy v => (v, ce)
            | MaxAccField.pair v e => (v, e)
          { t with
              start_epoch := se
              init_max_acc_and_epoch := macc
              optimizer :=
                if t.load_optim = true ∧ t.is_training = true then ckp.optimizer
                else t.optimizer }
        else t
      (true, { t1 with model := dict_update t1.model upd })

/-- `Trainer.evaluate` (lines 115-120): a resume is attempted only when
a checkpoint path was supplied (`if self.checkpoint:`), and
`validate_epoch` runs only when the resume returned `True`.  The first
component records whether `validate_epoch` was invoked. -/
def evaluate (t : TrainerState) (file : Option Checkpoint) :
    Bool × TrainerState :=
  if 0 < t.resume_path.length then
    resume_from_checkpoint t file
  else
    (false, t)

/-- A persisted checkpoint record, the `state` dictionary built by
`_save_checkpoint` (lines 183-188). -/
structure SavedState where
  epoch : ℕ
  state_dict : StateDict
  optimizer : ℕ
  max_acc : ℚ × ℕ
deriving DecidableEq

/-- The three checkpoint slots on durable storage: the per-epoch
history files (keyed by the epoch number in the file name), the
`latest` file, and the `best` file. -/
structure CkpStore where
  latest : Option SavedState
  best : Option SavedState
  history : List (ℕ × SavedState)
deriving DecidableEq

/-- A fresh output directory: no checkpoint file exists yet. -/
def empty_store : CkpStore :=
  { latest := none, best := none, history := [] }

/-- `Trainer._save_checkpoint` (lines 182-205): write the history file
when `epoch % track_intvl == 0` (line 191), always overwrite `latest`
(line 198), and copy the just-written `latest` over `best` when
`is_best` (lines 199-205). -/
def save_checkpoint (store : CkpStore) (track_intvl : ℕ) (sd : StateDict)
    (optim : ℕ) (max_acc : ℚ × ℕ) (epoch : ℕ) (is_best : Bool) : CkpStore :=
  let state : SavedState :=
    { epoch := epoch, state_dict := sd, optimizer := optim, max_acc := max_acc }
  let store1 :=
    if epoch % track_intvl = 0 then
      { store with history := (epoch, state) :: store.history }
    else store
  let store2 := { store1 with latest := some state }
  if is_best then { store2 with best := store2.latest } else store2

/-- The run configuration fields the epoch loop reads. -/
structure RunConfig where
  track_intvl : ℕ
  num_epochs : ℕ
  save_optim : Bool
deriving DecidableEq

/-- The mutable state of the epoch loop in `Trainer.train`
(lines 83-113): the checkpoint store and the running `max_acc`,
`best_epoch` pair. -/
structure LoopState where
  store : CkpStore
  max_acc : ℚ
  best_epoch : ℕ
deriving DecidableEq

/-- One iteration of the `Trainer.train` loop body after validation
(lines 101-113): compare the epoch score against the running best with
strict `>`, update the best pair on improvement, and persist the
checkpoint with `epoch+1` as the stored epoch.  `sd` is
`model.state_dict()` at this epoch, `optim` the optimizer state
(stored only when `save_optim`, line 111), `acc` the score returned by
`validate_epoch`. -/
def train_step (cfg : RunConfig) (sd : StateDict) (optim : ℕ) (acc : ℚ)
    (epoch : ℕ) (s : LoopState) : LoopState :=
  let is_best := decide (s.max_acc < acc)
  let new_max := if is_best then acc else s.max_acc
  let new_best_epoch := if is_best then epoch else s.best_epoch
  { store :=
      save_checkpoint s.store cfg.track_intvl sd
        (if cfg.save_optim then optim else 0)
        (new_max, new_best_epoch) (epoch + 1) is_best,
    max_acc := new_max,
    best_epoch := new_best_epoch }

/-- The epoch loop `for epoch in range(start, num_epochs)` of
`Trainer.train`, run for `len` epochs from epoch `start`.  `sds`,
`optims` and `accs` give, per epoch, the model state dict, the
optimizer state, and the validation score. -/
def run_epochs (cfg : RunConfig) (sds : ℕ → StateDict) (optims : ℕ → ℕ)
    (accs : ℕ → ℚ) (s : LoopState) (start len : ℕ) : LoopState :=
  match len with
  | 0 => s
  | Nat.succ n =>
      run_epochs cfg sds optims accs
        (train_step cfg (sds start) (optims start) (accs start) start s)
        (start + 1) n

/-- The loop state at entry of `Trainer.train`'s epoch loop:
`max_acc, best_epoch = self._init_max_acc_and_epoch` (line 83), with no
checkpoint written yet. -/
def init_loop_state (t : TrainerState) : LoopState :=
  { store := empty_store,
    max_acc := t.init_max_acc_and_epoch.1,
    best_epoch := t.init_max_acc_and_epoch.2 }

/-- `Trainer.train` (lines 79-113): when a resume path was supplied the
resume is attempted and its Boolean result is discarded (line 81), then
the epoch loop runs from `start_epoch` to `num_epochs`. -/
def train (cfg : RunConfig) (t : TrainerState) (file : Option Checkpoint)
    (sds : ℕ → StateDict) (optims : ℕ → ℕ) (accs : ℕ → ℚ) :
    TrainerState × LoopState :=
  let t1 :=
    if 0 < t.resume_path.length then (resume_from_checkpoint t file).2 else t
  (t1,
   run_epochs cfg sds optims accs (init_loop_state t1) t1.start_epoch
     (cfg.num_epochs - t1.start_epoch))

/-- The running maximum of the initial best score and the validation
scores of the epochs in `[start, e)` — the value `max_acc` holds when
the loop reaches epoch `e`. -/
def prev_max (accs : ℕ → ℚ) (init : ℚ) (start e : ℕ) : ℚ :=
  ((List.range' start (e - start)).map accs).foldl max init

/-- The learning-rate policies of `_adjust_learning_rate`
(lines 122-130); `other` stands for any unrecognized `lr_mode` string,
which raises `ValueError`. -/
inductive LrMode where
  | step
  | poly
  | const
  | other
deriving DecidableEq

/-- `Trainer._adjust_learning_rate` (lines 122-134) as a function of the
epoch: `base * 0.5 ** (epoch // stepSize)` for `step`,
`base * (1 - epoch/num_epochs) ** 1.1` for `poly`, `base` for `const`.
`none` models the raised exceptions: `ValueError` for an unknown mode
and `ZeroDivisionError` for a zero divisor. -/
noncomputable def adjust_learning_rate (mode : LrMode) (base : ℝ)
    (stepSize num_epochs epoch : ℕ) : Option ℝ :=
  match mode with
  | LrMode.step =>
      if stepSize = 0 then none
      else some (base * (0.5 : ℝ) ^ (epoch / stepSize))
  | LrMode.poly =>
      if num_epochs = 0 then none
      else some (base * (1 - (epoch : ℝ) / (num_epochs : ℝ)) ^ (1.1 : ℝ))
  | LrMode.const => some base
  | LrMode.other => none

/-- The attribute names ever assigned on a `Trainer`/`CDTrainer`
instance: the `__init__` assignments (lines 22-57, with the loaders and
optimizer depending on the mode, lines 49-54) and the
`_resume_from_checkpoint` assignments (lines 163-169), which only
re-assign `start_epoch` and `_init_max_acc_and_epoch`. -/
def trainer_attr_names (is_training : Bool) : List String :=
  ["ctx", "mode", "logger", "gpc", "path", "batch_size", "checkpoint",
   "load_checkpoint", "num_epochs", "lr", "save", "out_dir", "track_intvl",
   "device", "suffix_off", "model", "criterion", "metrics"]
  ++ (if is_training then ["train_loader", "val_loader", "optimizer"]
      else ["val_loader"])
  ++ ["start_epoch", "_init_max_acc_and_epoch"]

/-- The return statement of `CDTrainer.validate_epoch` (line 303):
`self.metrics[0].avg if len(self.metrics) > 0 else
max(1.0 - losses.avg, self._init_max_acc)`.  `metric_avgs` lists the
`avg` of each configured metric, `attr_names` the attributes defined on
the instance and `attr_val` their numeric values; reading an attribute
that is not defined raises `AttributeError`. -/
def validate_epoch_return (metric_avgs : List ℚ) (losses_avg : ℚ)
    (attr_names : List String) (attr_val : String → ℚ) : Except String ℚ :=
  match metric_avgs with
  | m :: _ => Except.ok m
  | [] =>
      if "_init_max_acc" ∈ attr_names then
        Except.ok (max (1 - losses_avg) (attr_val "_init_max_acc"))
      else
        Except.error "AttributeError: _init_max_acc"

/-! ## Helper lemmas about the epoch loop -/

/-- After one loop iteration the `latest` slot holds a record whose
stored epoch is the completed epoch plus one, regardless of the prior
state. -/
theorem train_step_latest (cfg : RunConfig) (sd : StateDict) (optim : ℕ)
    (acc : ℚ) (e : ℕ) (s : LoopState) :
    ∃ r : SavedState,
      (train_step cfg sd optim acc e s).store.latest = some r
      ∧ r.epoch = e + 1 := by
  unfold train_step save_checkpoint
  by_cases hacc : s.max_acc < acc <;>
    by_cases hm : (e + 1) % cfg.track_intvl = 0 <;>
      simp [hacc, hm]

/-! ## Helper lemmas about association-list dictionaries -/

/-- A key with a successful lookup is among the dictionary's keys. -/
theorem lookup_mem_keys {l : StateDict} {k : String} {v : Tensor}
    (h : l.lookup k = some v) : k ∈ keys l := by
  induction l with
  | nil => simp at h
  | cons kv tl ih =>
    obtain ⟨a, b⟩ := kv
    by_cases hk : k = a
    · subst hk; simp [keys]
    · have hne : (k == a) = false := beq_eq_false_iff_ne.mpr hk
      simp only [List.lookup_cons, hne] at h
      simp only [keys, List.map_cons, List.mem_cons]
      exact Or.inr (ih h)

/-- A key of the dictionary is the key of some entry. -/
theorem mem_keys_exists {l : StateDict} {x : String} (h : x ∈ keys l) :
    ∃ w, (x, w) ∈ l := by
  rw [keys, List.mem_map] at h
  obtain ⟨⟨a, b⟩, hp, he⟩ := h
  exact ⟨b, by simpa [← he] using hp⟩

/-- In a dictionary with unique keys, every entry is found by lookup. -/
theorem lookup_of_mem_nodup {l : StateDict} {k : String} {v : Tensor}
    (hn : (keys l).Nodup) (h : (k, v) ∈ l) : l.lookup k = some v := by
  induction l with
  | nil => simp at h
  | cons kv tl ih =>
    obtain ⟨a, b⟩ := kv
    rw [keys, List.map_cons, List.nodup_cons] at hn
    obtain ⟨hna, hntl⟩ := hn
    rcases List.mem_cons.mp h with heq | hmem
    · cases heq
      exact List.lookup_cons_self
    · have hka : k ≠ a := by
        intro hk
        have hmk : k ∈ List.map Prod.fst tl := List.mem_map_of_mem Prod.fst hmem
        exact hna (hk ▸ hmk)
      simp only [List.lookup_cons, beq_eq_false_iff_ne.mpr hka]
      exact ih hntl hmem

/-- Filtering keeps an entry found by lookup when the predicate accepts
it, and lookup still finds it first. -/
theorem lookup_filter_of_pred {p : String × Tensor → Bool} {l : StateDict}
    {k : String} {w : Tensor} (hl : l.lookup k = some w)
    (hp : p (k, w) = true) : (l.filter p).lookup k = some w := by
  induction l with
  | nil => simp at hl
  | cons kv tl ih =>
    obtain ⟨a, b⟩ := kv
    by_cases hk : k = a
    · subst hk
      have hb : b = w := by simpa using hl
      subst hb
      rw [List.filter_cons_of_pos hp]
      exact List.lookup_cons_self
    · have hne : (k == a) = false := beq_eq_false_iff_ne.mpr hk
      simp only [List.lookup_cons, hne] at hl
      by_cases hpa : p (a, b) = true
      · rw [List.filter_cons_of_pos hpa]
        simp only [List.lookup_cons, hne]
        exact ih hl
      · rw [List.filter_cons_of_neg (by simpa using hpa)]
        exact ih hl

/-- Counting argument behind the mismatch branch: if some live
parameter `k` is missing from the record or stored with a different
shape, then (under unique keys on both sides) the update dictionary is
strictly smaller than the live `state_dict`. -/
theorem length_update_lt (sd ckp : StateDict)
    (hnsd : (keys sd).Nodup) (hnck : (keys ckp).Nodup)
    (k : String) (v : Tensor) (hv : sd.lookup k = some v)
    (hmiss : ∀ w, ckp.lookup k = some w → w.shape ≠ v.shape) :
    (update_dict sd ckp).length < sd.length := by
  classical
  have hkmem : k ∈ keys sd := lookup_mem_keys hv
  have hsub : ∀ x ∈ keys (update_dict sd ckp), x ∈ keys sd ∧ x ≠ k := by
    intro x hx
    obtain ⟨w, hw⟩ := mem_keys_exists hx
    obtain ⟨hwck, hp⟩ := List.mem_filter.mp hw
    constructor
    · cases hsd : sd.lookup x with
      | none => simp [hsd] at hp
      | some v2 => exact lookup_mem_keys hsd
    · intro hxk
      subst hxk
      have hlk : ckp.lookup x = some w := lookup_of_mem_nodup hnck hwck
      have hsh : w.shape ≠ v.shape := hmiss w hlk
      simp only [hv, decide_eq_true_eq] at hp
      exact hsh hp.symm
  have hnupd : (keys (update_dict sd ckp)).Nodup :=
    ((List.filter_sublist ckp).map Prod.fst).nodup hnck
  have hUS : (keys (update_dict sd ckp)).toFinset ⊆ (keys sd).toFinset.erase k := by
    intro x hx
    rw [List.mem_toFinset] at hx
    obtain ⟨hmem, hne⟩ := hsub x hx
    exact Finset.mem_erase.mpr ⟨hne, List.mem_toFinset.mpr hmem⟩
  have hcard := Finset.card_le_card hUS
  rw [Finset.card_erase_of_mem (List.mem_toFinset.mpr hkmem),
    List.toFinset_card_of_nodup hnupd, List.toFinset_card_of_nodup hnsd] at hcard
  have hlen1 : (keys (update_dict sd ckp)).length = (update_dict sd ckp).length :=
    List.length_map _ _
  have hlen2 : (keys sd).length = sd.length := List.length_map _ _
  have hpos : 0 < sd.length := by
    rw [← hlen2]
    exact List.length_pos.mpr (List.ne_nil_of_mem hkmem)
  omega

/-- The running best after one loop iteration is the maximum of the
previous best and the epoch's score (`is_best = acc > max_acc`,
line 101). -/
theorem train_step_max_acc (cfg : RunConfig) (sd : StateDict) (optim : ℕ)
    (acc : ℚ) (e : ℕ) (s : LoopState) :
    (train_step cfg sd optim acc e s).max_acc = max s.max_acc acc := by
  unfold train_step
  by_cases h : s.max_acc < acc
  · simp [h, max_eq_right (le_of_lt h)]
  · simp [h, max_eq_left (le_of_not_lt h)]

/-- Loop invariant: after running epochs `[start, start+len)` the
running best equals the fold of `max` over the validation scores,
seeded with the incoming best. -/
theorem run_epochs_max_acc (cfg : RunConfig) (sds : ℕ → StateDict)
    (optims : ℕ → ℕ) (accs : ℕ → ℚ) (s : LoopState) (start len : ℕ) :
    (run_epochs cfg sds optims accs s start len).max_acc
      = ((List.range' start len).map accs).foldl max s.max_acc := by
  induction len generalizing s start with
  | zero => rfl
  | succ n ih =>
    have hstep : run_epochs cfg sds optims accs s start (n + 1)
        = run_epochs cfg sds optims accs
            (train_step cfg (sds start) (optims start) (accs start) start s)
            (start + 1) n := rfl
    rw [hstep, ih, train_step_max_acc, List.range'_succ, List.map_cons,
      List.foldl_cons]

/-! ## Claim theorems -/

/-- C2: for every epoch `e` in `[start_epoch, num_epochs)` processed by
`Trainer.train`, the checkpoint record persisted at the end of that
epoch stores `e + 1` (the next epoch to run) in its `epoch` field. -/
theorem C2_stored_epoch (cfg : RunConfig) (sds : ℕ → StateDict)
    (optims : ℕ → ℕ) (accs : ℕ → ℚ) (t : TrainerState) (e : ℕ)
    (h1 : t.start_epoch ≤ e) (h2 : e < cfg.num_epochs) :
    ∃ r : SavedState,
      (train_step cfg (sds e) (optims e) (accs e) e
        (run_epochs cfg sds optims accs (init_loop_state t) t.start_epoch
          (e - t.start_epoch))).store.latest = some r
      ∧ r.epoch = e + 1 :=
  train_step_latest cfg (sds e) (optims e) (accs e) e _

/-- C2 witness at a concrete input: epoch 1 of a two-epoch run. -/
theorem C2_stored_epoch_witness :
    (0 : ℕ) ≤ 1 ∧ (1 : ℕ) < 2 ∧
    ∃ r : SavedState,
      (train_step ⟨1, 2, false⟩ [] 0 1 1
        (run_epochs ⟨1, 2, false⟩ (fun _ => []) (fun _ => 0) (fun _ => 1)
          (init_loop_state ⟨true, false, false, "", [], 0, (0, 0), 0⟩) 0 1)).store.latest
        = some r
      ∧ r.epoch = 1 + 1 :=
  ⟨by decide, by decide,
   C2_stored_epoch ⟨1, 2, false⟩ (fun _ => []) (fun _ => 0) (fun _ => 1)
     ⟨true, false, false, "", [], 0, (0, 0), 0⟩ 1 (by decide) (by decide)⟩

/-- C3 counterexample: with `track_intvl = 5` the claim predicts a
history file after completing epoch 0 and none after completing
epoch 4; the code does the opposite, because `_save_checkpoint` tests
`epoch % track_intvl` on the stored epoch `e + 1` (passed at line 112),
not on the completed epoch. -/
theorem C3_history_counterexample :
    (train_step ⟨5, 11, false⟩ [] 0 1 0 ⟨empty_store, 0, 0⟩).store.history = []
    ∧ (train_step ⟨5, 11, false⟩ [] 0 1 4 ⟨empty_store, 0, 0⟩).store.history ≠ [] := by
  decide

/-- C3 amended: a history-slot checkpoint is written by the loop body
exactly when the stored epoch `e + 1` satisfies
`(e + 1) % track_intvl == 0` (so with `track_intvl = 5` completing
epochs 4, 9, 14 produces history files), and the latest slot is
written on every epoch regardless, holding stored epoch `e + 1`. -/
theorem C3_amended_history (cfg : RunConfig) (htr : 0 < cfg.track_intvl)
    (sd : StateDict) (optim : ℕ) (acc : ℚ) (e : ℕ) (s : LoopState) :
    ((train_step cfg sd optim acc e s).store.history ≠ s.store.history
        ↔ (e + 1) % cfg.track_intvl = 0)
    ∧ ∃ r : SavedState,
        (train_step cfg sd optim acc e s).store.latest = some r
        ∧ r.epoch = e + 1 := by
  refine ⟨?_, train_step_latest cfg sd optim acc e s⟩
  unfold train_step save_checkpoint
  by_cases hacc : s.max_acc < acc <;>
    by_cases hm : (e + 1) % cfg.track_intvl = 0 <;>
      simp [hacc, hm, List.cons_ne_self]

/-- C3 amended witness: completing epoch 4 with `track_intvl = 5`
writes a history file and the latest slot stores epoch 5. -/
theorem C3_amended_history_witness :
    0 < (5 : ℕ) ∧
    (((train_step ⟨5, 11, false⟩ [] 0 1 4 ⟨empty_store, 0, 0⟩).store.history
        ≠ (⟨empty_store, 0, 0⟩ : LoopState).store.history
      ↔ (4 + 1) % 5 = 0)
    ∧ ∃ r : SavedState,
        (train_step ⟨5, 11, false⟩ [] 0 1 4 ⟨empty_store, 0, 0⟩).store.latest = some r
        ∧ r.epoch = 4 + 1) :=
  ⟨by decide, C3_amended_history ⟨5, 11, false⟩ (by decide) [] 0 1 4 ⟨empty_store, 0, 0⟩⟩

/-- C4: `Trainer.train` with a non-empty resume path naming no existing
file: `_resume_from_checkpoint` logs an error and returns `false`, but
`train` (line 81) discards that result and proceeds to run the epoch
loop from the default state — here a one-epoch run completes and writes
a checkpoint for epoch 1 whose best score `(1, 0)` was computed from
scratch, contradicting the claim that the failure is surfaced and the
run must not proceed. -/
theorem C4_resume_failure_ignored :
    (resume_from_checkpoint
      ⟨true, false, false, "missing.pth", [("a", ⟨[2], 0⟩)], 0, (0, 0), 0⟩ none).1
      = false
    ∧ 0 < ("missing.pth" : String).length
    ∧ ((train ⟨1, 1, false⟩
          ⟨true, false, false, "missing.pth", [("a", ⟨[2], 0⟩)], 0, (0, 0), 0⟩
          none (fun _ => [("a", ⟨[2], 0⟩)]) (fun _ => 0) (fun _ => 1)).2.store.latest).map
        (fun r => (r.epoch, r.max_acc)) = some (1, (1, 0)) := by
  decide

/-- C8: `_adjust_learning_rate` returns `base * 0.5 ^ (epoch / stepSize)`
under the `step` policy, `base * (1 - epoch/num_epochs) ^ 1.1` under the
`poly` policy, and `base` unchanged under `const`; with `stepSize = 10`
the step policy gives `base` at epoch 0, `base * 0.5` at epoch 10 and
`base * 0.25` at epoch 20. -/
theorem C8_lr_policies (base : ℝ) (stepSize num_epochs epoch : ℕ)
    (hs : stepSize ≠ 0) (hn : num_epochs ≠ 0) :
    adjust_learning_rate LrMode.step base stepSize num_epochs epoch
      = some (base * (0.5 : ℝ) ^ (epoch / stepSize))
    ∧ adjust_learning_rate LrMode.poly base stepSize num_epochs epoch
      = some (base * (1 - (epoch : ℝ) / (num_epochs : ℝ)) ^ (1.1 : ℝ))
    ∧ adjust_learning_rate LrMode.const base stepSize num_epochs epoch = some base
    ∧ adjust_learning_rate LrMode.step base 10 num_epochs 0 = some base
    ∧ adjust_learning_rate LrMode.step base 10 num_epochs 10 = some (base * 0.5)
    ∧ adjust_learning_rate LrMode.step base 10 num_epochs 20 = some (base * 0.25) := by
  refine ⟨?_, ?_, rfl, ?_, ?_, ?_⟩
  · simp [adjust_learning_rate, hs]
  · simp [adjust_learning_rate, hn]
  · norm_num [adjust_learning_rate]
  · norm_num [adjust_learning_rate]
  · norm_num [adjust_learning_rate]

/-- C8 witness at a concrete input: `base = 1`, `stepSize = 10`,
`num_epochs = 100`, `epoch = 7`. -/
theorem C8_lr_policies_witness :
    (10 : ℕ) ≠ 0 ∧ (100 : ℕ) ≠ 0 ∧
    (adjust_learning_rate LrMode.step 1 10 100 7
        = some (1 * (0.5 : ℝ) ^ (7 / 10 : ℕ))
      ∧ adjust_learning_rate LrMode.poly 1 10 100 7
        = some (1 * (1 - ((7 : ℕ) : ℝ) / ((100 : ℕ) : ℝ)) ^ (1.1 : ℝ))
      ∧ adjust_learning_rate LrMode.const 1 10 100 7 = some 1
      ∧ adjust_learning_rate LrMode.step 1 10 100 0 = some 1
      ∧ adjust_learning_rate LrMode.step 1 10 100 10 = some (1 * 0.5)
      ∧ adjust_learning_rate LrMode.step 1 10 100 20 = some (1 * 0.25)) :=
  ⟨by decide, by decide, C8_lr_policies 1 10 100 7 (by decide) (by decide)⟩

/-- C10: when the configured metrics list is empty, the return
statement of `CDTrainer.validate_epoch` reads the attribute
`_init_max_acc`, which is never assigned on the trainer (only
`_init_max_acc_and_epoch` is, in `__init__` and in the resume), so the
call fails with `AttributeError` instead of returning the loss-based
fallback score. -/
theorem C10_missing_fallback_attr :
    ∀ (is_training : Bool) (losses_avg : ℚ) (attr_val : String → ℚ),
      "_init_max_acc" ∉ trainer_attr_names is_training
      ∧ "_init_max_acc_and_epoch" ∈ trainer_attr_names is_training
      ∧ validate_epoch_return [] losses_avg (trainer_attr_names is_training) attr_val
          = Except.error "AttributeError: _init_max_acc" := by
  intro b la f
  have h : "_init_max_acc" ∉ trainer_attr_names b := by cases b <;> decide
  refine ⟨h, ?_, ?_⟩
  · cases b <;> decide
  · simp [validate_epoch_return, h]

/-- C6: for every checkpoint with zero parameter entries overlapping
the live model in both name and shape, the computed update dictionary
is empty and `_resume_from_checkpoint` fails before applying anything,
returning with the trainer state (in particular every live model
parameter) unchanged.  The hypothesis `hne` excludes only the
degenerate situation of a parameterless model resumed from an empty
checkpoint. -/
theorem C6_zero_overlap (t : TrainerState) (c : Checkpoint)
    (hne : t.model ≠ [] ∨ c.state_dict ≠ [])
    (hzero : ∀ k w, (k, w) ∈ c.state_dict →
        ∀ v, t.model.lookup k = some v → v.shape ≠ w.shape) :
    update_dict t.model c.state_dict = []
    ∧ resume_from_checkpoint t (some c) = (false, t) := by
  have hupd : update_dict t.model c.state_dict = [] := by
    rw [update_dict, List.filter_eq_nil_iff]
    intro kv hkv
    obtain ⟨k, w⟩ := kv
    cases hsd : t.model.lookup k with
    | none => simp [hsd]
    | some v => simp [hsd, hzero k w hkv v hsd]
  have hcond : (update_dict t.model c.state_dict).length < t.model.length
      ∨ t.model.length < c.state_dict.length := by
    by_cases hm : t.model = []
    · right
      rw [hm]
      have hc : c.state_dict ≠ [] := by
        rcases hne with h | h
        · exact absurd hm h
        · exact h
      simpa using List.length_pos.mpr hc
    · left
      rw [hupd]
      simpa using List.length_pos.mpr hm
  refine ⟨hupd, ?_⟩
  simp only [resume_from_checkpoint]
  rw [if_pos hcond]
  by_cases hin : t.is_training = false
      ∧ (update_dict t.model c.state_dict).length < t.model.length
  · rw [if_pos hin]
  · rw [if_neg hin, if_pos (by rw [hupd]; rfl)]

/-- C6 witness: a single-parameter model against a checkpoint holding
only an unrelated parameter name. -/
theorem C6_zero_overlap_witness :
    ((⟨true, false, false, "ckpt.pth", [("a", ⟨[2], 0⟩)], 0, (0, 0), 0⟩ :
        TrainerState).model ≠ []
      ∨ (⟨some 5, [("b", ⟨[2], 7⟩)], 0, none⟩ : Checkpoint).state_dict ≠ [])
    ∧ (∀ k w, (k, w) ∈ (⟨some 5, [("b", ⟨[2], 7⟩)], 0, none⟩ :
          Checkpoint).state_dict →
        ∀ v, (⟨true, false, false, "ckpt.pth", [("a", ⟨[2], 0⟩)], 0, (0, 0), 0⟩ :
          TrainerState).model.lookup k = some v → v.shape ≠ w.shape)
    ∧ (update_dict
        (⟨true, false, false, "ckpt.pth", [("a", ⟨[2], 0⟩)], 0, (0, 0), 0⟩ :
          TrainerState).model
        (⟨some 5, [("b", ⟨[2], 7⟩)], 0, none⟩ : Checkpoint).state_dict = []
      ∧ resume_from_checkpoint
          ⟨true, false, false, "ckpt.pth", [("a", ⟨[2], 0⟩)], 0, (0, 0), 0⟩
          (some ⟨some 5, [("b", ⟨[2], 7⟩)], 0, none⟩)
        = (false,
           ⟨true, false, false, "ckpt.pth", [("a", ⟨[2], 0⟩)], 0, (0, 0), 0⟩)) := by
  have hz : ∀ k w, (k, w) ∈ (⟨some 5, [("b", ⟨[2], 7⟩)], 0, none⟩ :
        Checkpoint).state_dict →
      ∀ v, (⟨true, false, false, "ckpt.pth", [("a", ⟨[2], 0⟩)], 0, (0, 0), 0⟩ :
        TrainerState).model.lookup k = some v → v.shape ≠ w.shape := by
    intro k w hkw v hv
    simp only [List.mem_singleton, Prod.mk.injEq] at hkw
    obtain ⟨hk, hw⟩ := hkw
    subst hk
    simp [List.lookup] at hv
  exact ⟨Or.inl (by decide), hz,
    C6_zero_overlap _ _ (Or.inl (by decide)) hz⟩

/-- C5: in evaluation-only mode (`cmd = 'val'`), for every checkpoint
whose parameter set only partially overlaps the live model's — some
live parameter name missing from the record or stored with a different
shape — `_resume_from_checkpoint` returns `false` (lines 153-155) and
`evaluate` does not invoke `validate_epoch` (line 117). -/
theorem C5_eval_mismatch (t : TrainerState) (c : Checkpoint)
    (hmode : t.is_training = false)
    (hnsd : (keys t.model).Nodup)
    (hnck : (keys c.state_dict).Nodup)
    (hmiss : ∃ k v, t.model.lookup k = some v ∧
        ∀ w, c.state_dict.lookup k = some w → w.shape ≠ v.shape) :
    (resume_from_checkpoint t (some c)).1 = false
    ∧ (evaluate t (some c)).1 = false := by
  obtain ⟨k, v, hv, hw⟩ := hmiss
  have hlt : (update_dict t.model c.state_dict).length < t.model.length :=
    length_update_lt t.model c.state_dict hnsd hnck k v hv hw
  have hres : resume_from_checkpoint t (some c) = (false, t) := by
    simp only [resume_from_checkpoint]
    rw [if_pos (Or.inl hlt), if_pos ⟨hmode, hlt⟩]
  constructor
  · rw [hres]
  · rw [evaluate]
    by_cases hp : 0 < t.resume_path.length
    · rw [if_pos hp, hres]
    · rw [if_neg hp]

/-- C5 witness: a two-parameter model evaluated against a checkpoint
that stores only one of the parameters. -/
theorem C5_eval_mismatch_witness :
    ((⟨false, false, false, "ckpt.pth", [("a", ⟨[2], 0⟩), ("b", ⟨[3], 1⟩)], 0,
        (0, 0), 0⟩ : TrainerState).is_training = false)
    ∧ (keys [("a", (⟨[2], 0⟩ : Tensor)), ("b", ⟨[3], 1⟩)]).Nodup
    ∧ (keys [("a", (⟨[2], 7⟩ : Tensor))]).Nodup
    ∧ (∃ k v, List.lookup k [("a", (⟨[2], 0⟩ : Tensor)), ("b", ⟨[3], 1⟩)] = some v ∧
        ∀ w, List.lookup k [("a", (⟨[2], 7⟩ : Tensor))] = some w → w.shape ≠ v.shape)
    ∧ ((resume_from_checkpoint
          ⟨false, false, false, "ckpt.pth", [("a", ⟨[2], 0⟩), ("b", ⟨[3], 1⟩)], 0,
            (0, 0), 0⟩
          (some ⟨some 5, [("a", ⟨[2], 7⟩)], 0, none⟩)).1 = false
      ∧ (evaluate
          ⟨false, false, false, "ckpt.pth", [("a", ⟨[2], 0⟩), ("b", ⟨[3], 1⟩)], 0,
            (0, 0), 0⟩
          (some ⟨some 5, [("a", ⟨[2], 7⟩)], 0, none⟩)).1 = false) := by
  have hm : ∃ k v, List.lookup k [("a", (⟨[2], 0⟩ : Tensor)), ("b", ⟨[3], 1⟩)] = some v ∧
      ∀ w, List.lookup k [("a", (⟨[2], 7⟩ : Tensor))] = some w → w.shape ≠ v.shape := by
    refine ⟨"b", ⟨[3], 1⟩, by decide, ?_⟩
    intro w hw
    rw [(by decide : List.lookup "b" [("a", (⟨[2], 7⟩ : Tensor))] = none)] at hw
    exact Option.noConfusion hw
  exact ⟨rfl, by decide, by decide, hm,
    C5_eval_mismatch _ _ rfl (by decide) (by decide) hm⟩

/-- C1 counterexample: a checkpoint whose parameter mapping is a strict
superset of the live model's (shared name `a` with identical shape,
extra name `b`) resumes in training mode with `anew` unset, yet
`start_epoch` stays 0 instead of the record's stored epoch 5 and the
best-score tuple stays at its default — the load is not treated as a
full match. -/
theorem C1_superset_counterexample :
    (resume_from_checkpoint
      ⟨true, false, false, "ckpt.pth", [("a", ⟨[2], 0⟩)], 0, (0, 0), 0⟩
      (some ⟨some 5, [("a", ⟨[2], 7⟩), ("b", ⟨[3], 8⟩)], 0,
        some (MaxAccField.pair 1 2)⟩)).1 = true
    ∧ (resume_from_checkpoint
        ⟨true, false, false, "ckpt.pth", [("a", ⟨[2], 0⟩)], 0, (0, 0), 0⟩
        (some ⟨some 5, [("a", ⟨[2], 7⟩), ("b", ⟨[3], 8⟩)], 0,
          some (MaxAccField.pair 1 2)⟩)).2.start_epoch = 0
    ∧ (resume_from_checkpoint
        ⟨true, false, false, "ckpt.pth", [("a", ⟨[2], 0⟩)], 0, (0, 0), 0⟩
        (some ⟨some 5, [("a", ⟨[2], 7⟩), ("b", ⟨[3], 8⟩)], 0,
          some (MaxAccField.pair 1 2)⟩)).2.start_epoch
        ≠ (some 5).getD 0
    ∧ (resume_from_checkpoint
        ⟨true, false, false, "ckpt.pth", [("a", ⟨[2], 0⟩)], 0, (0, 0), 0⟩
        (some ⟨some 5, [("a", ⟨[2], 7⟩), ("b", ⟨[3], 8⟩)], 0,
          some (MaxAccField.pair 1 2)⟩)).2.init_max_acc_and_epoch = (0, 0) := by
  decide

/-- C1 amended: for every checkpoint whose stored parameter mapping is
a strict superset of the live model's parameter names with identical
shapes for all shared names, resuming computes an update set covering
all live parameters, but the load is treated as a mismatched partial
load: `_resume_from_checkpoint` returns `true` with a warning while
`start_epoch` and the best-score tuple keep their prior values (they
are not restored from the record). -/
theorem C1_superset_partial_load (t : TrainerState) (c : Checkpoint)
    (ht : t.is_training = true)
    (hne : t.model ≠ [])
    (hcover : ∀ k v, t.model.lookup k = some v →
        ∃ w, c.state_dict.lookup k = some w ∧ w.shape = v.shape)
    (hlen : t.model.length < c.state_dict.length) :
    (resume_from_checkpoint t (some c)).1 = true
    ∧ (resume_from_checkpoint t (some c)).2.start_epoch = t.start_epoch
    ∧ (resume_from_checkpoint t (some c)).2.init_max_acc_and_epoch
        = t.init_max_acc_and_epoch
    ∧ ∀ k v, t.model.lookup k = some v →
        ∃ w, (update_dict t.model c.state_dict).lookup k = some w
          ∧ w.shape = v.shape := by
  have hupd : ∀ k v, t.model.lookup k = some v →
      ∃ w, (update_dict t.model c.state_dict).lookup k = some w
        ∧ w.shape = v.shape := by
    intro k v hv
    obtain ⟨w, hw, hsh⟩ := hcover k v hv
    refine ⟨w, ?_, hsh⟩
    apply lookup_filter_of_pred hw
    simp [hv, hsh]
  obtain ⟨kv0, tl0, hm0⟩ := List.exists_cons_of_ne_nil hne
  obtain ⟨k0, v0⟩ := kv0
  have hlk0 : t.model.lookup k0 = some v0 := by
    rw [hm0]; exact List.lookup_cons_self
  obtain ⟨w0, hw0, hsh0⟩ := hupd k0 v0 hlk0
  have hnz : ¬(update_dict t.model c.state_dict).length = 0 := by
    intro h0
    rw [List.length_eq_zero] at h0
    rw [h0] at hw0
    exact Option.noConfusion hw0
  have hnin : ¬(t.is_training = false
      ∧ (update_dict t.model c.state_dict).length < t.model.length) := by
    intro h
    rw [ht] at h
    exact absurd h.1 (by decide)
  have hres : resume_from_checkpoint t (some c)
      = (true, { t with
          model := dict_update t.model (update_dict t.model c.state_dict) }) := by
    simp only [resume_from_checkpoint]
    rw [if_pos (Or.inr hlen), if_neg hnin, if_neg hnz]
  rw [hres]
  exact ⟨rfl, rfl, rfl, hupd⟩

/-- C1 amended witness: single-parameter model, checkpoint storing that
parameter with the same shape plus one extra parameter. -/
theorem C1_superset_partial_load_witness :
    ((⟨true, false, false, "ckpt.pth", [("a", ⟨[2], 0⟩)], 0, (0, 0), 0⟩ :
        TrainerState).is_training = true)
    ∧ ([("a", (⟨[2], 0⟩ : Tensor))] : StateDict) ≠ []
    ∧ (∀ k v, List.lookup k [("a", (⟨[2], 0⟩ : Tensor))] = some v →
        ∃ w, List.lookup k [("a", (⟨[2], 7⟩ : Tensor)), ("b", ⟨[3], 8⟩)] = some w
          ∧ w.shape = v.shape)
    ∧ ([("a", (⟨[2], 0⟩ : Tensor))] : StateDict).length
        < ([("a", (⟨[2], 7⟩ : Tensor)), ("b", ⟨[3], 8⟩)] : StateDict).length
    ∧ ((resume_from_checkpoint
          ⟨true, false, false, "ckpt.pth", [("a", ⟨[2], 0⟩)], 0, (0, 0), 0⟩
          (some ⟨some 5, [("a", ⟨[2], 7⟩), ("b", ⟨[3], 8⟩)], 0, none⟩)).1 = true
      ∧ (resume_from_checkpoint
          ⟨true, false, false, "ckpt.pth", [("a", ⟨[2], 0⟩)], 0, (0, 0), 0⟩
          (some ⟨some 5, [("a", ⟨[2], 7⟩), ("b", ⟨[3], 8⟩)], 0, none⟩)).2.start_epoch
          = 0
      ∧ (resume_from_checkpoint
          ⟨true, false, false, "ckpt.pth", [("a", ⟨[2], 0⟩)], 0, (0, 0), 0⟩
          (some ⟨some 5, [("a", ⟨[2], 7⟩), ("b", ⟨[3], 8⟩)], 0,
            none⟩)).2.init_max_acc_and_epoch = (0, 0)
      ∧ ∀ k v, List.lookup k [("a", (⟨[2], 0⟩ : Tensor))] = some v →
          ∃ w, (update_dict [("a", ⟨[2], 0⟩)]
              [("a", ⟨[2], 7⟩), ("b", ⟨[3], 8⟩)]).lookup k = some w
            ∧ w.shape = v.shape) := by
  have hcov : ∀ k v, List.lookup k [("a", (⟨[2], 0⟩ : Tensor))] = some v →
      ∃ w, List.lookup k [("a", (⟨[2], 7⟩ : Tensor)), ("b", ⟨[3], 8⟩)] = some w
        ∧ w.shape = v.shape := by
    intro k v hv
    by_cases hk : k = "a"
    · subst hk
      rw [List.lookup_cons_self] at hv
      cases hv
      exact ⟨⟨[2], 7⟩, List.lookup_cons_self, rfl⟩
    · have hne : (k == "a") = false := beq_eq_false_iff_ne.mpr hk
      simp only [List.lookup_cons, hne, List.lookup_nil] at hv
      exact Option.noConfusion hv
  exact ⟨rfl, by decide, hcov, by decide,
    C1_superset_partial_load _ _ rfl (by decide) hcov (by decide)⟩

/-- C7 counterexample: a full-match checkpoint whose `max_acc` is the
bare number `0.87` and whose stored `epoch` field is 5 resumes with the
best-score tuple `(0.87, 4)`, not `(0.87, 5)`: the bare number is
paired with `ckp_epoch = max(start_epoch - 1, 0)`. -/
theorem C7_legacy_counterexample :
    (resume_from_checkpoint
      ⟨true, false, false, "ckpt.pth", [("a", ⟨[2], 0⟩)], 0, (0, 0), 0⟩
      (some ⟨some 5, [("a", ⟨[2], 7⟩)], 0,
        some (MaxAccField.legacy (87/100))⟩)).2.init_max_acc_and_epoch
      = (87/100, 4)
    ∧ (resume_from_checkpoint
        ⟨true, false, false, "ckpt.pth", [("a", ⟨[2], 0⟩)], 0, (0, 0), 0⟩
        (some ⟨some 5, [("a", ⟨[2], 7⟩)], 0,
          some (MaxAccField.legacy (87/100))⟩)).2.init_max_acc_and_epoch
      ≠ (87/100, 5) := by
  have h1 : (resume_from_checkpoint
      ⟨true, false, false, "ckpt.pth", [("a", ⟨[2], 0⟩)], 0, (0, 0), 0⟩
      (some ⟨some 5, [("a", ⟨[2], 7⟩)], 0,
        some (MaxAccField.legacy (87/100))⟩)).2.init_max_acc_and_epoch
      = ((87/100 : ℚ), (4 : ℕ)) := rfl
  refine ⟨h1, ?_⟩
  rw [h1]
  intro h
  have h2 : (4 : ℕ) = 5 := congrArg Prod.snd h
  exact absurd h2 (by decide)

/-- C7 amended: on every full-match resume that restores progress, a
legacy bare-number `max_acc` value `v` in a checkpoint whose stored
epoch field is `E` is restored as the tuple `(v, max (E-1) 0)` — the
bare number is paired with the checkpoint's last completed epoch
`ckp_epoch`, one less than the stored (next-to-run) epoch field. -/
theorem C7_legacy_best_epoch (t : TrainerState) (c : Checkpoint) (v : ℚ) (E : ℕ)
    (hfull : ¬((update_dict t.model c.state_dict).length < t.model.length
        ∨ t.model.length < c.state_dict.length))
    (hmode : t.anew = false ∨ t.is_training = false)
    (hacc : c.max_acc = some (MaxAccField.legacy v))
    (hep : c.epoch = some E) :
    (resume_from_checkpoint t (some c)).1 = true
    ∧ (resume_from_checkpoint t (some c)).2.start_epoch = E
    ∧ (resume_from_checkpoint t (some c)).2.init_max_acc_and_epoch
        = (v, max (E - 1) 0) := by
  simp only [resume_from_checkpoint]
  rw [if_neg hfull, if_pos hmode]
  refine ⟨rfl, ?_, ?_⟩ <;> simp [hacc, hep, ckp_epoch]

/-- C7 amended witness: bare `max_acc = 0.87` with stored epoch 5 is
restored as `(0.87, 4)`. -/
theorem C7_legacy_best_epoch_witness :
    ¬((update_dict [("a", (⟨[2], 0⟩ : Tensor))] [("a", ⟨[2], 7⟩)]).length
        < ([("a", (⟨[2], 0⟩ : Tensor))] : StateDict).length
      ∨ ([("a", (⟨[2], 0⟩ : Tensor))] : StateDict).length
        < ([("a", (⟨[2], 7⟩ : Tensor))] : StateDict).length)
    ∧ (false = false ∨ true = false)
    ∧ (some (MaxAccField.legacy (87/100)) = some (MaxAccField.legacy (87/100)))
    ∧ ((some 5 : Option ℕ) = some 5)
    ∧ ((resume_from_checkpoint
          ⟨true, false, false, "ckpt.pth", [("a", ⟨[2], 0⟩)], 0, (0, 0), 0⟩
          (some ⟨some 5, [("a", ⟨[2], 7⟩)], 0,
            some (MaxAccField.legacy (87/100))⟩)).1 = true
      ∧ (resume_from_checkpoint
          ⟨true, false, false, "ckpt.pth", [("a", ⟨[2], 0⟩)], 0, (0, 0), 0⟩
          (some ⟨some 5, [("a", ⟨[2], 7⟩)], 0,
            some (MaxAccField.legacy (87/100))⟩)).2.start_epoch = 5
      ∧ (resume_from_checkpoint
          ⟨true, false, false, "ckpt.pth", [("a", ⟨[2], 0⟩)], 0, (0, 0), 0⟩
          (some ⟨some 5, [("a", ⟨[2], 7⟩)], 0,
            some (MaxAccField.legacy (87/100))⟩)).2.init_max_acc_and_epoch
          = (87/100, max (5 - 1) 0)) :=
  ⟨by decide, Or.inl rfl, rfl, rfl,
   C7_legacy_best_epoch _ _ (87/100) 5 (by decide) (Or.inl rfl) rfl rfl⟩

/-- C9: after each epoch `e` of `Trainer.train`, the best-slot
checkpoint is overwritten with a copy of the just-written latest-slot
checkpoint exactly when the epoch's validation score strictly exceeds
the running maximum of all previous scores (including a resumed best);
on a tie or lower score the best slot and the best tuple are left
unchanged. -/
theorem C9_best_slot (cfg : RunConfig) (sds : ℕ → StateDict) (optims : ℕ → ℕ)
    (accs : ℕ → ℚ) (t : TrainerState) (e : ℕ)
    (h1 : t.start_epoch ≤ e) (h2 : e < cfg.num_epochs) :
    let before := run_epochs cfg sds optims accs (init_loop_state t)
        t.start_epoch (e - t.start_epoch)
    let after := train_step cfg (sds e) (optims e) (accs e) e before
    (accs e > prev_max accs t.init_max_acc_and_epoch.1 t.start_epoch e →
      after.store.best = after.store.latest
      ∧ after.max_acc = accs e ∧ after.best_epoch = e)
    ∧ (accs e ≤ prev_max accs t.init_max_acc_and_epoch.1 t.start_epoch e →
      after.store.best = before.store.best
      ∧ after.max_acc = before.max_acc ∧ after.best_epoch = before.best_epoch) := by
  intro before after
  have hbm : before.max_acc
      = prev_max accs t.init_max_acc_and_epoch.1 t.start_epoch e := by
    rw [prev_max]
    exact run_epochs_max_acc cfg sds optims accs (init_loop_state t)
      t.start_epoch (e - t.start_epoch)
  constructor
  · intro hgt
    have hlt : before.max_acc < accs e := by rw [hbm]; exact hgt
    have hb : decide (before.max_acc < accs e) = true := decide_eq_true hlt
    have hafter : after
        = ⟨save_checkpoint before.store cfg.track_intvl (sds e)
            (if cfg.save_optim then optims e else 0) (accs e, e) (e + 1) true,
           accs e, e⟩ := by
      show train_step cfg (sds e) (optims e) (accs e) e before = _
      simp [train_step, hb]
    rw [hafter]
    exact ⟨rfl, rfl, rfl⟩
  · intro hle
    have hnlt : ¬before.max_acc < accs e := by rw [hbm]; exact not_lt.mpr hle
    have hb : decide (before.max_acc < accs e) = false := decide_eq_false hnlt
    have hafter : after
        = ⟨save_checkpoint before.store cfg.track_intvl (sds e)
            (if cfg.save_optim then optims e else 0)
            (before.max_acc, before.best_epoch) (e + 1) false,
           before.max_acc, before.best_epoch⟩ := by
      show train_step cfg (sds e) (optims e) (accs e) e before = _
      simp [train_step, hb]
    rw [hafter]
    refine ⟨?_, rfl, rfl⟩
    show (save_checkpoint before.store cfg.track_intvl (sds e)
        (if cfg.save_optim then optims e else 0)
        (before.max_acc, before.best_epoch) (e + 1) false).best
      = before.store.best
    by_cases hm : (e + 1) % cfg.track_intvl = 0 <;> simp [save_checkpoint, hm]

/-- C9 witness: a two-epoch run with scores 0 then 1 starting from a
zero best; epoch 1 strictly improves, so the best slot is a copy of the
latest slot. -/
theorem C9_best_slot_witness :
    (⟨true, false, false, "", [], 0, (0, 0), 0⟩ : TrainerState).start_epoch ≤ 1
    ∧ 1 < (⟨1, 2, false⟩ : RunConfig).num_epochs
    ∧ (let before := run_epochs ⟨1, 2, false⟩ (fun _ => []) (fun _ => 0)
          (fun n => (n : ℚ))
          (init_loop_state ⟨true, false, false, "", [], 0, (0, 0), 0⟩)
          (⟨true, false, false, "", [], 0, (0, 0), 0⟩ : TrainerState).start_epoch
          (1 - (⟨true, false, false, "", [], 0, (0, 0), 0⟩ :
            TrainerState).start_epoch)
       let after := train_step ⟨1, 2, false⟩ ((fun _ => ([] : StateDict)) 1)
          ((fun _ => (0 : ℕ)) 1) ((fun n => (n : ℚ)) 1) 1 before
       ((fun n => (n : ℚ)) 1 > prev_max (fun n => (n : ℚ))
          ((⟨true, false, false, "", [], 0, (0, 0), 0⟩ :
            TrainerState).init_max_acc_and_epoch.1)
          ((⟨true, false, false, "", [], 0, (0, 0), 0⟩ :
            TrainerState).start_epoch) 1 →
         after.store.best = after.store.latest
         ∧ after.max_acc = (fun n => (n : ℚ)) 1 ∧ after.best_epoch = 1)
       ∧ ((fun n => (n : ℚ)) 1 ≤ prev_max (fun n => (n : ℚ))
          ((⟨true, false, false, "", [], 0, (0, 0), 0⟩ :
            TrainerState).init_max_acc_and_epoch.1)
          ((⟨true, false, false, "", [], 0, (0, 0), 0⟩ :
            TrainerState).start_epoch) 1 →
         after.store.best = before.store.best
         ∧ after.max_acc = before.max_acc
         ∧ after.best_epoch = before.best_epoch)) :=
  ⟨by decide, by decide,
   C9_best_slot ⟨1, 2, false⟩ (fun _ => []) (fun _ => 0) (fun n => (n : ℚ))
     ⟨true, false, false, "", [], 0, (0, 0), 0⟩ 1 (by decide) (by decide)⟩

end Trainers
